import Mathlib

/-!
Verification of the EEG session resolution and rendering pipeline of
`app/pages/eeg_plotly_viewer.py` (an EEG/NHIS Streamlit dashboard).

The Python page is embedded shallowly:

* the static tables (`CHANNEL_INFO`, `cond_map`, `task_map`,
  `electrode_colors`, `electrode_coords`) become association lists in
  their source order;
* the filename construction, subject-catalog extraction, channel
  description lookup and plot construction become pure Lean functions;
* the local-or-remote dataset fetch (lines 72-87) becomes an explicit
  state-passing function over an association-list model of the cache
  directory, together with a counter of remote requests;
* the PIL image pipeline (lines 139-162) becomes functions over an
  `Img` record whose pixel plane is a function `Int → Int → RGBA`.

CSV file contents are modelled as already-parsed tables
(`List (String × List Int)`, column name to column values); the claims
under study only copy column values around, so the numeric cell type is
irrelevant and `Int` is used for decidability.
-/

namespace EEGViewer

/-! ## String helpers

All string manipulation is done on the underlying character lists so
that every definition evaluates by kernel reduction. -/

/-- `f.split("_")[0]` for a Python string: the longest underscore-free
leading segment. -/
def leadingToken (s : String) : String :=
  ⟨s.data.takeWhile (fun c => c ≠ '_')⟩

/-- Left-to-right, non-overlapping removal of every occurrence of
`"sub-"`, the semantics of Python `str.replace("sub-", "")` as used on
line 53. -/
def removeAllSubDash : List Char → List Char
  | 's' :: 'u' :: 'b' :: '-' :: rest => removeAllSubDash rest
  | c :: rest => c :: removeAllSubDash rest
  | [] => []

/-- The per-filename subject extraction (line 53):
`f.split("_")[0].replace("sub-", "")`. -/
def subjectOf (f : String) : String :=
  ⟨removeAllSubDash (leadingToken f).data⟩

/-- Python `f.endswith(".csv")` (line 46). -/
def endsWithCsv (f : String) : Bool :=
  match f.data.reverse with
  | 'v' :: 's' :: 'c' :: '.' :: _ => true
  | _ => false

/-! ## Static tables from the source -/

/-- `CHANNEL_INFO` (lines 10-38), in source order. -/
def CHANNEL_INFO : List (String × String) :=
  [("Fp1", "Frontopolar left (near forehead)"),
   ("Fp2", "Frontopolar right (near forehead)"),
   ("AF3", "Anterior frontal left"),
   ("AF4", "Anterior frontal right"),
   ("AF7", "Anterior frontal left (lateral)"),
   ("AF8", "Anterior frontal right (lateral)"),
   ("Fz", "Frontal midline"),
   ("F1", "Frontal left mid"),
   ("F2", "Frontal right mid"),
   ("F3", "Frontal left"),
   ("F4", "Frontal right"),
   ("FC1", "Frontal-central left"),
   ("FC2", "Frontal-central right"),
   ("Cz", "Central midline (top of head)"),
   ("C3", "Central left"),
   ("C4", "Central right"),
   ("CP1", "Central-parietal left"),
   ("CP2", "Central-parietal right"),
   ("Pz", "Parietal midline"),
   ("P3", "Parietal left"),
   ("P4", "Parietal right"),
   ("O1", "Occipital left (visual area)"),
   ("O2", "Occipital right (visual area)"),
   ("Oz", "Occipital midline"),
   ("T7", "Temporal left"),
   ("T8", "Temporal right"),
   ("POz", "Parieto-occipital midline")]

/-- `cond_map` (line 61). -/
def cond_map : List (String × String) :=
  [("Normal Sleep (NS)", "ses-1"), ("Sleep Deprived (SD)", "ses-2")]

/-- `task_map` (line 62). -/
def task_map : List (String × String) :=
  [("Eyes Open", "eyesopen"), ("Eyes Closed", "eyesclosed")]

/-- `electrode_colors` (lines 125-131), in source order. -/
def electrode_colors : List (String × String) :=
  [("FP1", "red"), ("AF3", "blue"), ("AF7", "green"),
   ("FZ", "orange"), ("F1", "purple")]

/-- `electrode_coords` (lines 145-151), in source order. -/
def electrode_coords : List (String × Int × Int) :=
  [("FP1", (310, 90)), ("AF3", (340, 125)), ("AF7", (280, 130)),
   ("FZ", (425, 150)), ("F1", (385, 140))]

/-! ## Session selector (lines 52-68) -/

/-- The filename built on lines 64-67:
`f"sub-{selected_subj}_{cond_map[selected_cond]}_{task_map[selected_task]}.csv"`.
A missing dictionary key (Python `KeyError`) is modelled as `none`. -/
def filename (selected_subj selected_cond selected_task : String) :
    Option String :=
  (cond_map.lookup selected_cond).bind fun session_str =>
    (task_map.lookup selected_task).map fun task_str =>
      "sub-" ++ selected_subj ++ "_" ++ session_str ++ "_" ++ task_str
        ++ ".csv"

/-- `subject_ids` (line 53): `sorted({subjectOf f for f in csv_files})`.
The Python `set` comprehension followed by `sorted` is a deduplication
followed by an ascending lexicographic sort. -/
def subject_ids (csv_files : List String) : List String :=
  ((csv_files.map subjectOf).dedup).insertionSort (· ≤ ·)

/-- The subject extraction as the spec sentence words it: strip a
leading `"sub-"` PREFIX of the leading token (rather than removing
every occurrence of `"sub-"`), then deduplicate and sort.  Written to
be compared with `subject_ids`. -/
def subjectOfSpec (f : String) : String :=
  match (leadingToken f).data with
  | 's' :: 'u' :: 'b' :: '-' :: rest => ⟨rest⟩
  | l => ⟨l⟩

/-- Spec-worded counterpart of `subject_ids`, using `subjectOfSpec`. -/
def subject_idsSpec (csv_files : List String) : List String :=
  ((csv_files.map subjectOfSpec).dedup).insertionSort (· ≤ ·)

/-! ## Channel descriptions (line 98) -/

/-- `CHANNEL_INFO.get(ch, "No description available")`. -/
def describeChannel (ch : String) : String :=
  (CHANNEL_INFO.lookup ch).getD "No description available"

/-! ## Dataset resolver (lines 72-87)

The content of a CSV file is modelled as its parsed table: column name to
column values in file order.  `pd.read_csv` is deterministic, so
byte-identical files give equal tables and vice versa for the files at
hand. -/

/-- A loaded EEG table: one `(columnName, columnValues)` pair per
column, in file-declared order. -/
abbrev EEGTable : Type := List (String × List Int)

/-- Outcome of one remote request to the configured Hugging Face
dataset repository (`hf_hub_download` on lines 75-81, modelled from its
documented contract: on success the object named `filename` is
materialised at `local_dir/filename`; otherwise an exception is
raised, with a not-found error distinguished from transfer errors). -/
inductive RemoteResult where
  | found (content : EEGTable)
  | notFound
  | networkError
  deriving DecidableEq

/-- The underlying cause carried by a failed fetch (the exception `e`
interpolated into the `st.error` message on line 84). -/
inductive FailureCause where
  | notFound
  | transferFailure
  deriving DecidableEq

/-- The local dataset directory `data/eeg_csv`, keyed by filename. -/
abbrev LocalCache : Type := List (String × EEGTable)

/-- Result of one run of the fetch block: the table or the typed
failure, the state of the local directory afterwards, and how many
remote requests were made. -/
structure FetchOut where
  result : Except FailureCause EEGTable
  store : LocalCache
  remoteAttempts : Nat

/-- Lines 72-87: if the file exists locally it is read as-is;
otherwise exactly one `hf_hub_download` is attempted, a success being
written into the local directory before the table is returned, and a
failure being surfaced (`st.error` + `st.stop`) with its cause. -/
def fetch (loc : LocalCache) (remote : String → RemoteResult)
    (key : String) : FetchOut :=
  match loc.lookup key with
  | some t => ⟨Except.ok t, loc, 0⟩
  | none =>
    match remote key with
    | RemoteResult.found t => ⟨Except.ok t, (key, t) :: loc, 1⟩
    | RemoteResult.notFound => ⟨Except.error FailureCause.notFound, loc, 1⟩
    | RemoteResult.networkError =>
        ⟨Except.error FailureCause.transferFailure, loc, 1⟩

/-! ## Channel renderer (lines 88-116) -/

/-- Column access `df[c]` on a loaded table. -/
def getCol (df : EEGTable) (c : String) : List Int :=
  (df.lookup c).getD []

/-- One `go.Scatter` trace: its legend name, X data and Y data. -/
structure Trace where
  name : String
  x : List Int
  y : List Int
  deriving DecidableEq

/-- What the channel-plot block displays: either the explicit
`st.info("No EEG channels selected.")` state (line 116) or one chart
holding the list of traces (lines 104-114). -/
inductive RenderResult where
  | emptyNotice
  | chart (traces : List Trace)
  deriving DecidableEq

/-- Lines 103-116: with a non-empty selection, one trace per selected
channel in selection order, each with `x = df[time_col]` and
`y = df[ch]`; with an empty selection, the explicit notice. -/
def render (df : EEGTable) (selected_channels : List String) :
    RenderResult :=
  if selected_channels.isEmpty then RenderResult.emptyNotice
  else
    RenderResult.chart
      (selected_channels.map fun ch => ⟨ch, getCol df "Time", getCol df ch⟩)

/-! ## Electrode overlay renderer (lines 120-162) -/

/-- A straight-alpha RGBA pixel, each component in `0..255`. -/
structure RGBA where
  r : Nat
  g : Nat
  b : Nat
  a : Nat
  deriving DecidableEq

/-- An RGBA raster image: dimensions plus a pixel plane. -/
structure Img where
  width : Nat
  height : Nat
  pix : Int → Int → RGBA

/-- Modelled from Pillow `ImageColor.getrgb`: a colour string that does
not start with `#` (no input of this page does) is looked up, as a
whole, in the fixed Pillow table of CSS colour names; an unknown string
raises `ValueError`.  The table is restricted here to the five names
this page stores in `electrode_colors`; no name in the full Pillow table
ends in `"80"`, so the restriction does not change the verdict on any
string this page can build. -/
def getrgb (s : String) : Option RGBA :=
  if s = "red" then some ⟨255, 0, 0, 255⟩
  else if s = "blue" then some ⟨0, 0, 255, 255⟩
  else if s = "green" then some ⟨0, 128, 0, 255⟩
  else if s = "orange" then some ⟨255, 165, 0, 255⟩
  else if s = "purple" then some ⟨128, 0, 128, 255⟩
  else none

/-- Membership in the filled disc drawn by
`draw.ellipse((x-15, y-15, x+15, y+15), ...)` centred at `(cx, cy)`. -/
def inMarker (cx cy x y : Int) : Bool :=
  (x - cx) ^ 2 + (y - cy) ^ 2 ≤ 225

/-- Porter-Duff `over` for one pixel, the per-pixel operation of
`Image.alpha_composite(bg, fg)` (line 159), with the Pillow fixed-point
rounding; a fully transparent foreground pixel leaves the background
pixel bit-identical. -/
def compositePixel (bg fg : RGBA) : RGBA :=
  if fg.a = 0 then bg
  else
    let outA255 := fg.a * 255 + bg.a * (255 - fg.a)
    let blend := fun (fc bc : Nat) =>
      (fc * fg.a * 255 + bc * bg.a * (255 - fg.a) + outA255 / 2) / outA255
    ⟨blend fg.r bg.r, blend fg.g bg.g, blend fg.b bg.b, outA255 / 255⟩

/-- How the drawing loop can raise: a `KeyError` on
`electrode_coords[elec]` / `electrode_colors[elec]`, or the Pillow
`ValueError` for an unknown colour specifier in `draw.ellipse(...,
fill=...)`. -/
inductive DrawError where
  | unknownElectrode (elec : String)
  | invalidColor (spec : String)
  deriving DecidableEq

/-- The loop on lines 154-156 over the transparent overlay: for each
selected electrode, look up `(x, y) = electrode_coords[elec]` and fill
the disc of radius 15 with the colour string
`electrode_colors[elec] + "80"`; later electrodes paint over earlier
ones. -/
def drawMarkers : List String → (Int → Int → RGBA) →
    Except DrawError (Int → Int → RGBA)
  | [], ov => Except.ok ov
  | elec :: rest, ov =>
    match electrode_coords.lookup elec with
    | none => Except.error (DrawError.unknownElectrode elec)
    | some (cx, cy) =>
      match electrode_colors.lookup elec with
      | none => Except.error (DrawError.unknownElectrode elec)
      | some cname =>
        match getrgb (cname ++ "80") with
        | none => Except.error (DrawError.invalidColor (cname ++ "80"))
        | some col =>
            drawMarkers rest
              (fun x y => if inMarker cx cy x y then col else ov x y)

/-- Lines 141-159: build the fully transparent overlay
`Image.new("RGBA", brain_img.size, (255, 255, 255, 0))`, run the
drawing loop, and alpha-composite the overlay onto the base image,
producing a fresh image of the same dimensions (`alpha_composite`
allocates its result; the base image object is not written to). -/
def annotate (base : Img) (selected_electrodes : List String) :
    Except DrawError Img :=
  match drawMarkers selected_electrodes (fun _ _ => ⟨255, 255, 255, 0⟩) with
  | Except.error e => Except.error e
  | Except.ok ov =>
      Except.ok
        ⟨base.width, base.height,
         fun x y => compositePixel (base.pix x y) (ov x y)⟩

/-! ## Page pipeline (lines 44-116) -/

/-- The selections of the user for one run of the page. -/
structure Selections where
  subj : String
  cond : String
  task : String
  channels : List String

/-- How one run of the data pipeline of the page ends. `noDatasets` is the
blocking `st.warning` + `st.stop` on lines 48-50 (it carries nothing:
no subject list, no plot); `badSelection` is a `KeyError` on the
condition/task dictionaries (unreachable for the offered radio
options); `fetchFailed` is the `st.error` + `st.stop` on lines 83-85;
`rendered` carries the offered subject catalog and the chart state. -/
inductive AppOutcome where
  | noDatasets
  | badSelection
  | fetchFailed (cause : FailureCause)
  | rendered (subjects : List String) (plot : RenderResult)

/-- The pipeline of the page from directory listing to chart, paired with
the number of remote requests it made: list `*.csv` files, stop if none,
build the filename from the selections, fetch locally-or-remotely, and
render the selected channels. -/
def runApp (dirListing : List String) (loc : LocalCache)
    (remote : String → RemoteResult) (sel : Selections) :
    AppOutcome × Nat :=
  let csv_files := dirListing.filter endsWithCsv
  if csv_files.isEmpty then (AppOutcome.noDatasets, 0)
  else
    match filename sel.subj sel.cond sel.task with
    | none => (AppOutcome.badSelection, 0)
    | some key =>
      let out := fetch loc remote key
      match out.result with
      | Except.error c => (AppOutcome.fetchFailed c, out.remoteAttempts)
      | Except.ok df =>
          (AppOutcome.rendered (subject_ids csv_files)
            (render df sel.channels), out.remoteAttempts)

/-! ## Concrete data used by the witnesses -/

/-- A small loaded EEG table with a `Time` column and two channels. -/
def demoTable : EEGTable :=
  [("Time", [0, 1, 2]), ("Fp1", [5, 6, 7]), ("O1", [3, 2, 1])]

/-- A concrete dataset key. -/
def demoKey : String := "sub-01_ses-1_eyesopen.csv"

/-- A remote store holding exactly `demoKey`. -/
def demoRemote : String → RemoteResult := fun k =>
  if k = demoKey then RemoteResult.found demoTable else RemoteResult.notFound

/-- A remote store that answers not-found to everything. -/
def demoRemoteDown : String → RemoteResult := fun _ => RemoteResult.notFound

/-- A concrete opaque base image of the reference size 850 times 655. -/
def demoImg : Img := ⟨850, 655, fun _ _ => ⟨0, 0, 0, 255⟩⟩

/-! ## Claims -/

/-- Claim C1, counterexample: for the valid triple (subject `01`,
Normal Sleep (NS), Eyes Open) the session selector produces
`sub-01_ses-1_eyesopen.csv`, not the bare key `sub-01_ses-1_eyesopen`
the claim states: the produced key always carries a trailing `.csv`
extension. -/
theorem c1_counterexample :
    filename "01" "Normal Sleep (NS)" "Eyes Open"
        = some "sub-01_ses-1_eyesopen.csv"
      ∧ filename "01" "Normal Sleep (NS)" "Eyes Open"
        ≠ some "sub-01_ses-1_eyesopen" := by
  decide

/-- Claim C1 (amended: the produced key is
`sub-SUBJECT_SESSION_TASK.csv`, with a trailing `.csv`): for every
valid (subject, condition, task) triple the selector succeeds and
produces exactly that pattern, with the session code drawn from the
fixed table sending Normal Sleep (NS) to `ses-1` and Sleep Deprived
(SD) to `ses-2`, and the task code from the fixed table sending Eyes
Open to `eyesopen` and Eyes Closed to `eyesclosed`; no other codes
appear, and `filename` is a pure function, hence deterministic and
side-effect free. -/
theorem c1_resolve_fixed_tables (subj cond task : String)
    (hc : cond = "Normal Sleep (NS)" ∨ cond = "Sleep Deprived (SD)")
    (ht : task = "Eyes Open" ∨ task = "Eyes Closed") :
    ∃ ses tas : String,
      cond_map.lookup cond = some ses
      ∧ task_map.lookup task = some tas
      ∧ (ses = "ses-1" ∨ ses = "ses-2")
      ∧ (tas = "eyesopen" ∨ tas = "eyesclosed")
      ∧ (cond = "Normal Sleep (NS)" → ses = "ses-1")
      ∧ (cond = "Sleep Deprived (SD)" → ses = "ses-2")
      ∧ (task = "Eyes Open" → tas = "eyesopen")
      ∧ (task = "Eyes Closed" → tas = "eyesclosed")
      ∧ filename subj cond task
          = some ("sub-" ++ subj ++ "_" ++ ses ++ "_" ++ tas ++ ".csv") := by
  rcases hc with rfl | rfl <;> rcases ht with rfl | rfl
  · exact ⟨"ses-1", "eyesopen", rfl, rfl, Or.inl rfl, Or.inl rfl,
      fun _ => rfl, by decide, fun _ => rfl, by decide, rfl⟩
  · exact ⟨"ses-1", "eyesclosed", rfl, rfl, Or.inl rfl, Or.inr rfl,
      fun _ => rfl, by decide, by decide, fun _ => rfl, rfl⟩
  · exact ⟨"ses-2", "eyesopen", rfl, rfl, Or.inr rfl, Or.inl rfl,
      by decide, fun _ => rfl, fun _ => rfl, by decide, rfl⟩
  · exact ⟨"ses-2", "eyesclosed", rfl, rfl, Or.inr rfl, Or.inr rfl,
      by decide, fun _ => rfl, by decide, fun _ => rfl, rfl⟩

/-- Claim C1, witness: the amended theorem applied to the concrete
triple (subject `01`, Normal Sleep (NS), Eyes Open). -/
theorem c1_resolve_fixed_tables_witness :
    (("Normal Sleep (NS)" : String) = "Normal Sleep (NS)"
      ∨ ("Normal Sleep (NS)" : String) = "Sleep Deprived (SD)")
    ∧ (("Eyes Open" : String) = "Eyes Open"
      ∨ ("Eyes Open" : String) = "Eyes Closed")
    ∧ ∃ ses tas : String,
        cond_map.lookup "Normal Sleep (NS)" = some ses
        ∧ task_map.lookup "Eyes Open" = some tas
        ∧ (ses = "ses-1" ∨ ses = "ses-2")
        ∧ (tas = "eyesopen" ∨ tas = "eyesclosed")
        ∧ (("Normal Sleep (NS)" : String) = "Normal Sleep (NS)" → ses = "ses-1")
        ∧ (("Normal Sleep (NS)" : String) = "Sleep Deprived (SD)" → ses = "ses-2")
        ∧ (("Eyes Open" : String) = "Eyes Open" → tas = "eyesopen")
        ∧ (("Eyes Open" : String) = "Eyes Closed" → tas = "eyesclosed")
        ∧ filename "01" "Normal Sleep (NS)" "Eyes Open"
            = some ("sub-" ++ "01" ++ "_" ++ ses ++ "_" ++ tas ++ ".csv") :=
  ⟨Or.inl rfl, Or.inl rfl,
   c1_resolve_fixed_tables "01" "Normal Sleep (NS)" "Eyes Open"
     (Or.inl rfl) (Or.inl rfl)⟩

/-- Claim C2 (confirmed): whenever a fetch succeeds, the local
directory afterwards holds the returned table under the key, a second
fetch for the same key returns the identical table while making zero
remote requests and leaving the directory unchanged, the first fetch
made a remote request exactly when the key was locally absent, and in
general a fetch makes no remote request if and only if the local file
exists. -/
theorem c2_fetch_idempotent (loc : LocalCache)
    (remote : String → RemoteResult) (key : String) (t : EEGTable)
    (h : (fetch loc remote key).result = Except.ok t) :
    (fetch loc remote key).store.lookup key = some t
    ∧ fetch (fetch loc remote key).store remote key
        = ⟨Except.ok t, (fetch loc remote key).store, 0⟩
    ∧ (fetch loc remote key).remoteAttempts
        = (if (loc.lookup key).isSome then 0 else 1)
    ∧ ∀ (l : LocalCache) (r : String → RemoteResult) (k : String),
        (fetch l r k).remoteAttempts = 0 ↔ (l.lookup k).isSome = true := by
  have hiff : ∀ (l : LocalCache) (r : String → RemoteResult) (k : String),
      (fetch l r k).remoteAttempts = 0 ↔ (l.lookup k).isSome = true := by
    intro l r k
    cases hl : l.lookup k with
    | some t₀ => simp [fetch, hl]
    | none =>
      cases hr : r k with
      | found t₀ => simp [fetch, hl, hr]
      | notFound => simp [fetch, hl, hr]
      | networkError => simp [fetch, hl, hr]
  cases hl : loc.lookup key with
  | some t₀ =>
    have ht : t₀ = t := by simpa [fetch, hl] using h
    subst ht
    exact ⟨by simp [fetch, hl], by simp [fetch, hl], by simp [fetch, hl],
      hiff⟩
  | none =>
    cases hr : remote key with
    | found t₀ =>
      have ht : t₀ = t := by simpa [fetch, hl, hr] using h
      subst ht
      exact ⟨by simp [fetch, hl, hr, List.lookup],
        by simp [fetch, hl, hr, List.lookup], by simp [fetch, hl, hr], hiff⟩
    | notFound => simp [fetch, hl, hr] at h
    | networkError => simp [fetch, hl, hr] at h

/-- Claim C2, witness: a first fetch of `demoKey` against an empty
local directory and a remote store holding it. -/
theorem c2_fetch_idempotent_witness :
    (fetch [] demoRemote demoKey).result = Except.ok demoTable
    ∧ ((fetch [] demoRemote demoKey).store.lookup demoKey = some demoTable
      ∧ fetch (fetch [] demoRemote demoKey).store demoRemote demoKey
          = ⟨Except.ok demoTable, (fetch [] demoRemote demoKey).store, 0⟩
      ∧ (fetch [] demoRemote demoKey).remoteAttempts
          = (if (([] : LocalCache).lookup demoKey).isSome then 0 else 1)
      ∧ ∀ (l : LocalCache) (r : String → RemoteResult) (k : String),
          (fetch l r k).remoteAttempts = 0 ↔ (l.lookup k).isSome = true) :=
  ⟨rfl, c2_fetch_idempotent [] demoRemote demoKey demoTable rfl⟩

/-- Claim C3 (confirmed): a fetch for a locally absent key whose
remote request fails ends in a `FailureCause` error whose cause
distinguishes not-found from transfer failure, makes exactly one
remote request (no retry), leaves the local directory unchanged (so no
partially-written table exists), and the page pipeline run with such a
key ends in the blocking fetch-failed outcome, which carries no
rendered chart. -/
theorem c3_fetch_failure (loc : LocalCache)
    (remote : String → RemoteResult) (key : String)
    (h1 : loc.lookup key = none)
    (h2 : remote key = RemoteResult.notFound
      ∨ remote key = RemoteResult.networkError) :
    ∃ c : FailureCause,
      fetch loc remote key = ⟨Except.error c, loc, 1⟩
      ∧ (remote key = RemoteResult.notFound → c = FailureCause.notFound)
      ∧ (remote key = RemoteResult.networkError →
          c = FailureCause.transferFailure)
      ∧ ∀ (dirListing : List String) (sel : Selections),
          dirListing.filter endsWithCsv ≠ []
          → filename sel.subj sel.cond sel.task = some key
          → runApp dirListing loc remote sel
              = (AppOutcome.fetchFailed c, 1) := by
  rcases h2 with h2 | h2
  · refine ⟨FailureCause.notFound, by simp [fetch, h1, h2], fun _ => rfl,
      fun hne => ?_, fun dirListing sel hne hk => ?_⟩
    · rw [h2] at hne; exact (RemoteResult.noConfusion hne)
    · simp [runApp, List.isEmpty_iff, hne, hk, fetch, h1, h2]
  · refine ⟨FailureCause.transferFailure, by simp [fetch, h1, h2],
      fun hne => ?_, fun _ => rfl, fun dirListing sel hne hk => ?_⟩
    · rw [h2] at hne; exact (RemoteResult.noConfusion hne)
    · simp [runApp, List.isEmpty_iff, hne, hk, fetch, h1, h2]

/-- Claim C3, witness: fetching `demoKey` with an empty local
directory while the remote store answers not-found. -/
theorem c3_fetch_failure_witness :
    (([] : LocalCache).lookup demoKey = none)
    ∧ (demoRemoteDown demoKey = RemoteResult.notFound
      ∨ demoRemoteDown demoKey = RemoteResult.networkError)
    ∧ ∃ c : FailureCause,
        fetch [] demoRemoteDown demoKey = ⟨Except.error c, [], 1⟩
        ∧ (demoRemoteDown demoKey = RemoteResult.notFound →
            c = FailureCause.notFound)
        ∧ (demoRemoteDown demoKey = RemoteResult.networkError →
            c = FailureCause.transferFailure)
        ∧ ∀ (dirListing : List String) (sel : Selections),
            dirListing.filter endsWithCsv ≠ []
            → filename sel.subj sel.cond sel.task = some demoKey
            → runApp dirListing [] demoRemoteDown sel
                = (AppOutcome.fetchFailed c, 1) :=
  ⟨rfl, Or.inl rfl,
   c3_fetch_failure [] demoRemoteDown demoKey rfl (Or.inl rfl)⟩

/-- Claim C4 (confirmed): rendering an empty channel selection yields
the explicit empty-selection notice (a distinct constructor, not an
empty chart); rendering a single non-time column X yields exactly one
trace whose Y data is the X column of the table in file order and
whose X data is the `Time` column; and any non-empty selection yields
one trace per selected channel, all sharing the `Time` column as their
X data, on one chart. -/
theorem c4_render (df : EEGTable) (X : String) (ts ys : List Int)
    (hX : X ≠ "Time") (hT : df.lookup "Time" = some ts)
    (hY : df.lookup X = some ys) :
    render df [] = RenderResult.emptyNotice
    ∧ render df [X] = RenderResult.chart [⟨X, ts, ys⟩]
    ∧ ∀ chs : List String, chs ≠ [] →
        render df chs
          = RenderResult.chart
              (chs.map fun ch => ⟨ch, getCol df "Time", getCol df ch⟩) := by
  refine ⟨rfl, ?_, ?_⟩
  · simp [render, getCol, hT, hY]
  · intro chs hne
    simp [render, List.isEmpty_iff, hne]

/-- Claim C4, witness: `demoTable` with the single channel `Fp1`. -/
theorem c4_render_witness :
    (("Fp1" : String) ≠ "Time")
    ∧ demoTable.lookup "Time" = some [0, 1, 2]
    ∧ demoTable.lookup "Fp1" = some [5, 6, 7]
    ∧ (render demoTable [] = RenderResult.emptyNotice
      ∧ render demoTable ["Fp1"] = RenderResult.chart [⟨"Fp1", [0, 1, 2], [5, 6, 7]⟩]
      ∧ ∀ chs : List String, chs ≠ [] →
          render demoTable chs
            = RenderResult.chart
                (chs.map fun ch =>
                  ⟨ch, getCol demoTable "Time", getCol demoTable ch⟩)) :=
  ⟨by decide, by decide, by decide,
   c4_render demoTable "Fp1" [0, 1, 2] [5, 6, 7]
     (by decide) (by decide) (by decide)⟩

/-- Claim C5 (code bug): the drawing loop builds the fill string by
appending `"80"` to the colour NAME (line 156, `electrode_colors[elec]
+ "80"`), producing `"red80"`, which is not a colour specifier Pillow
accepts (the name-plus-alpha-suffix trick only works for hex strings
such as `#ff0000`), so selecting any electrode raises `ValueError`
inside `draw.ellipse` instead of drawing the claimed semi-transparent
marker — contradicting the comment `# semi-transparent fill` on the
same line. -/
theorem c5_marker_color_code_bug (base : Img) :
    annotate base ["FP1"] = Except.error (DrawError.invalidColor "red80")
    ∧ electrode_colors.lookup "FP1" = some "red"
    ∧ ("red" ++ "80" : String) = "red80"
    ∧ getrgb "red" = some ⟨255, 0, 0, 255⟩
    ∧ getrgb "red80" = none :=
  ⟨rfl, by decide, by decide, by decide, by decide⟩

/-- Claim C6 (confirmed): with an empty electrode selection the
overlay stays fully transparent, so the composited output image has
the same dimensions as the base image and is pixel-identical to it. -/
theorem c6_annotate_empty (base : Img) :
    ∃ out : Img,
      annotate base [] = Except.ok out
      ∧ out.width = base.width
      ∧ out.height = base.height
      ∧ ∀ x y : Int, out.pix x y = base.pix x y := by
  refine ⟨⟨base.width, base.height,
    fun x y => compositePixel (base.pix x y) ⟨255, 255, 255, 0⟩⟩,
    rfl, rfl, rfl, fun x y => rfl⟩

/-- Claim C7, counterexample: for a channel absent from the catalog
the code returns the string `No description available` (capital N),
not the string `no description available` the claim states. -/
theorem c7_counterexample :
    CHANNEL_INFO.lookup "Qz" = none
    ∧ describeChannel "Qz" ≠ "no description available"
    ∧ describeChannel "Qz" = "No description available" := by
  decide

/-- Claim C7 (amended: the fallback string is capitalised,
`No description available`): for every channel label, the description
is the fallback exactly when the label is absent from the catalog and
the exact catalog string when present; in particular `Fp1` maps to
exactly `Frontopolar left (near forehead)`. -/
theorem c7_describe (ch : String) :
    (CHANNEL_INFO.lookup ch = none →
      describeChannel ch = "No description available")
    ∧ (∀ d : String, CHANNEL_INFO.lookup ch = some d →
        describeChannel ch = d)
    ∧ describeChannel "Fp1" = "Frontopolar left (near forehead)" := by
  refine ⟨fun h => ?_, fun d h => ?_, by decide⟩
  · simp [describeChannel, h]
  · simp [describeChannel, h]

/-- Claim C7, witness: the amended theorem applied to the absent label
`Qz` and to the present label `Fp1`. -/
theorem c7_describe_witness :
    (CHANNEL_INFO.lookup "Qz" = none
     ∧ describeChannel "Qz" = "No description available")
    ∧ (CHANNEL_INFO.lookup "Fp1" = some "Frontopolar left (near forehead)"
     ∧ describeChannel "Fp1" = "Frontopolar left (near forehead)") :=
  ⟨⟨by decide, (c7_describe "Qz").1 (by decide)⟩,
   ⟨by decide, (c7_describe "Fp1").2.1 _ (by decide)⟩⟩

/-- Claim C8 (confirmed): the electrode set offered by the
multiselect, the key list of `electrode_colors`, coincides with the
key list of `electrode_coords`; both lookups succeed for every offered
electrode; and for any selection drawn from the offered set the
missing-key (`KeyError`) branch of the drawing loop is unreachable. -/
theorem c8_offered_electrodes (base : Img) (sel : List String)
    (h : ∀ e ∈ sel, e ∈ electrode_colors.map Prod.fst) :
    electrode_colors.map Prod.fst = electrode_coords.map Prod.fst
    ∧ (∀ e ∈ electrode_colors.map Prod.fst,
        (electrode_coords.lookup e).isSome
        ∧ (electrode_colors.lookup e).isSome)
    ∧ ∀ el : String,
        annotate base sel ≠ Except.error (DrawError.unknownElectrode el) := by
  refine ⟨by decide, by decide, ?_⟩
  intro el
  cases sel with
  | nil => simp [annotate, drawMarkers]
  | cons e rest =>
    have he : e = "FP1" ∨ e = "AF3" ∨ e = "AF7" ∨ e = "FZ" ∨ e = "F1" := by
      simpa [electrode_colors] using h e (List.mem_cons_self e rest)
    rcases he with rfl | rfl | rfl | rfl | rfl
    · show Except.error (DrawError.invalidColor "red80")
          ≠ Except.error (DrawError.unknownElectrode el)
      simp
    · show Except.error (DrawError.invalidColor "blue80")
          ≠ Except.error (DrawError.unknownElectrode el)
      simp
    · show Except.error (DrawError.invalidColor "green80")
          ≠ Except.error (DrawError.unknownElectrode el)
      simp
    · show Except.error (DrawError.invalidColor "orange80")
          ≠ Except.error (DrawError.unknownElectrode el)
      simp
    · show Except.error (DrawError.invalidColor "purple80")
          ≠ Except.error (DrawError.unknownElectrode el)
      simp

/-- Claim C8, witness: the theorem applied to the concrete selection
consisting of `FP1` over the demo base image. -/
theorem c8_offered_electrodes_witness :
    (∀ e ∈ ["FP1"], e ∈ electrode_colors.map Prod.fst)
    ∧ (electrode_colors.map Prod.fst = electrode_coords.map Prod.fst
      ∧ (∀ e ∈ electrode_colors.map Prod.fst,
          (electrode_coords.lookup e).isSome
          ∧ (electrode_colors.lookup e).isSome)
      ∧ ∀ el : String,
          annotate demoImg ["FP1"]
            ≠ Except.error (DrawError.unknownElectrode el)) :=
  ⟨by decide, c8_offered_electrodes demoImg ["FP1"] (by decide)⟩

/-- Claim C9 (confirmed): when the dataset directory holds no `.csv`
file the pipeline ends in the blocking no-datasets outcome, which
carries no subject catalog and no chart, and zero remote requests are
made — nothing is resolved, fetched or rendered. -/
theorem c9_no_datasets (dirListing : List String) (loc : LocalCache)
    (remote : String → RemoteResult) (sel : Selections)
    (h : dirListing.filter endsWithCsv = []) :
    runApp dirListing loc remote sel = (AppOutcome.noDatasets, 0) := by
  simp [runApp, h]

/-- Claim C9, witness: a directory listing with no CSV file. -/
theorem c9_no_datasets_witness :
    ((["README.md", "notes.txt"] : List String).filter endsWithCsv = [])
    ∧ runApp ["README.md", "notes.txt"] [] demoRemote
        ⟨"01", "Normal Sleep (NS)", "Eyes Open", []⟩
        = (AppOutcome.noDatasets, 0) :=
  ⟨by decide,
   c9_no_datasets ["README.md", "notes.txt"] [] demoRemote
     ⟨"01", "Normal Sleep (NS)", "Eyes Open", []⟩ (by decide)⟩

/-- Claim C10, counterexample: the code removes EVERY occurrence of
`sub-` from the leading token (Python `replace`), not only a leading
prefix: on the filename `sub-sub-01_ses-1_eyesopen.csv` the code
offers subject `01` while the claimed prefix-stripping algorithm would
offer `sub-01`. -/
theorem c10_counterexample :
    subject_ids ["sub-sub-01_ses-1_eyesopen.csv"] = ["01"]
    ∧ subject_idsSpec ["sub-sub-01_ses-1_eyesopen.csv"] = ["sub-01"]
    ∧ subject_ids ["sub-sub-01_ses-1_eyesopen.csv"]
        ≠ subject_idsSpec ["sub-sub-01_ses-1_eyesopen.csv"] := by
  decide

/-- Claim C10 (amended: the subject ID of a filename is its leading
token with every occurrence of `sub-` removed, not only a leading
prefix): for every list of cached CSV filenames the offered subject
catalog is duplicate-free, sorted in ascending order, and contains a
subject exactly when some filename yields it — so each subject appears
exactly once however many files it has. -/
theorem c10_subject_catalog (csv_files : List String) :
    (subject_ids csv_files).Nodup
    ∧ List.Sorted (· ≤ ·) (subject_ids csv_files)
    ∧ ∀ s : String,
        s ∈ subject_ids csv_files ↔ ∃ f ∈ csv_files, subjectOf f = s := by
  refine ⟨?_, ?_, ?_⟩
  · exact ((List.perm_insertionSort _ _).nodup_iff).2
      (List.nodup_dedup _)
  · exact List.sorted_insertionSort _ _
  · intro s
    simp [subject_ids, List.mem_insertionSort, List.mem_dedup, List.mem_map]

end EEGViewer
